import Mathlib

/-!
Shallow embedding of the cache/fetch coordinator of the `simple_oracle`
repository (`src/qn_proxy.rs`, `src/db.rs`, `src/errors.rs`) and proofs of
the specification claims about it.

Modelling conventions:
* `rocket::http::Status` is modelled as a `Nat` status code.
* `std::time::Instant` is modelled as a `Nat` (abstract monotonic seconds);
  epoch seconds (`i64`) are modelled as `Int`.
* `f64` popularity scores are modelled as `ℚ`; the claims settled here do
  not depend on floating-point rounding.
* `DashMap` / `HashMap` / the SQLite table keyed by `cache_key` are all
  modelled as association lists `List (String × α)` with `alookup`,
  `upsert` (insert-or-replace) and `aremove`.
* The asynchronous parts are linearized: registration in the single-flight
  map (`qn_proxy.rs` lines 177-196) is the atomic step `fetch_singleflight_register`;
  the leader's continuation (lines 197-223) is `fetch_singleflight_leader`,
  parameterized by the environment's budget decision and upstream outcome.
  Side effects that the claims mention (permit handling, upstream calls,
  waiter deliveries) are recorded as an explicit event list.
-/

/-- Association-list lookup; models map/table lookup by key. -/
def alookup {α : Type} (m : List (String × α)) (k : String) : Option α :=
  match m with
  | [] => none
  | (k', v) :: rest => if k' = k then some v else alookup rest k

/-- Insert-or-replace; models `DashMap::insert` / `HashMap::insert` /
`INSERT ... ON CONFLICT DO UPDATE`. -/
def upsert {α : Type} (m : List (String × α)) (k : String) (v : α) :
    List (String × α) :=
  match m with
  | [] => [(k, v)]
  | (k', v') :: rest => if k' = k then (k, v) :: rest else (k', v') :: upsert rest k v

/-- Remove the entry for a key; models `HashMap::remove`. -/
def aremove {α : Type} (m : List (String × α)) (k : String) : List (String × α) :=
  match m with
  | [] => []
  | (k', v') :: rest => if k' = k then rest else (k', v') :: aremove rest k

/-- Substring test on strings; models Rust `str::contains(pat)`. -/
def strContains (s pat : String) : Bool :=
  go s.data
where
  go : List Char → Bool
  | [] => pat.data.isPrefixOf []
  | c :: rest => pat.data.isPrefixOf (c :: rest) || go rest

/-- `f64::min`: the smaller of two scores (`ℚ` stands in for `f64`). -/
def qmin (a b : ℚ) : ℚ := if a ≤ b then a else b

/-- Comparator of `make_cache_key`’s sort:
`a.0.cmp(&b.0).then(a.1.cmp(&b.1))` as a ≤-test. -/
def pairLe (a b : String × String) : Bool :=
  decide (a.1 < b.1) || (a.1 == b.1 && !(decide (b.2 < a.2)))

/-- Stable insertion into a `pairLe`-sorted list. -/
def pairInsert (x : String × String) :
    List (String × String) → List (String × String)
  | [] => [x]
  | y :: ys => if pairLe x y then x :: y :: ys else y :: pairInsert x ys

/-- `Vec::sort_by` with the comparator above (insertion sort; the sorted
result is what `make_cache_key` consumes). -/
def sortPairs : List (String × String) → List (String × String)
  | [] => []
  | x :: xs => pairInsert x (sortPairs xs)

/-- `Vec<String>::join("&")`. -/
def joinAmp : List String → String
  | [] => ""
  | [s] => s
  | s :: rest => s ++ "&" ++ joinAmp rest

/-- `src/errors.rs`: the `AppError` enum.  Variants whose Rust payload is a
foreign error type (`Sqlite`, `Jwt`, `Json`, `Anyhow`) carry their display
message as a `String`. -/
inductive AppError where
  | NotFound
  | Unauthorized
  | Forbidden
  | TooManyRequests
  | BadRequest (msg : String)
  | Conflict (msg : String)
  | Sqlite (msg : String)
  | Jwt (msg : String)
  | Json (msg : String)
  | Anyhow (msg : String)
deriving DecidableEq

/-- `src/errors.rs`: `AppError::status`, the HTTP status mapping. -/
def AppError.status : AppError → Nat
  | .NotFound => 404
  | .Unauthorized => 401
  | .Forbidden => 403
  | .TooManyRequests => 429
  | .BadRequest _ => 400
  | .Conflict _ => 409
  | .Sqlite _ => 500
  | .Jwt _ => 401
  | .Json _ => 400
  | .Anyhow _ => 500

/-- `src/errors.rs`: the `thiserror`-derived `Display` of `AppError`
(`err.to_string()`); `#[error(transparent)]` variants show the inner
message. -/
def AppError.message : AppError → String
  | .NotFound => "not found"
  | .Unauthorized => "unauthorized"
  | .Forbidden => "forbidden"
  | .TooManyRequests => "too many requests"
  | .BadRequest s => "bad request: " ++ s
  | .Conflict s => "conflict: " ++ s
  | .Sqlite s => s
  | .Jwt s => s
  | .Json s => s
  | .Anyhow s => s

/-- `Result<(Status, String), AppError>` as it flows through the
single-flight machinery. -/
inductive FetchResult where
  | ok (status : Nat) (body : String)
  | err (e : AppError)
deriving DecidableEq

/-- `rocket::http::Status::from_code`: recognizes status codes in the HTTP
range `100..599` (registered codes; modelled as total on the range — every
code the proofs evaluate is a standard registered one). -/
def status_from_code (code : Nat) : Option Nat :=
  if 100 ≤ code ∧ code < 600 then some code else none

/-- `src/qn_proxy.rs`: `CachedEntry`, the L1 value. -/
structure CachedEntry where
  status : Nat
  body : String
  stored_at : Nat
deriving DecidableEq

/-- `src/db.rs`: one row of the `http_cache` table. -/
structure L2Row where
  status : Nat
  body : String
  stored_at : Int
  expires_at : Int
  popularity : ℚ
  last_accessed : Int
deriving DecidableEq

/-- The configuration fields of `QuicknodeProxy` relevant to the claims
(defaults as read by `from_env`; the popularity thresholds are read by
`choose_ttl` from the environment with the same defaults). -/
structure ProxyConfig where
  base_url : String
  ttl_hot : Nat := 15
  ttl_warm : Nat := 45
  ttl_cold : Nat := 300
  max_stale : Nat := 180
  enable_l2 : Bool := true
  hot_threshold : ℚ := 50
  warm_threshold : ℚ := 10
deriving DecidableEq

/-- The mutable state of `QuicknodeProxy` touched by the claims: the L1
`cache` map, the in-memory `popularity` map, the single-flight `inflight`
registry (waiters are identified by `Nat` ids standing for the oneshot
senders), and the L2 `http_cache` table. -/
structure ProxyState where
  cache : List (String × CachedEntry)
  popularity : List (String × ℚ)
  inflight : List (String × List Nat)
  l2 : List (String × L2Row)
deriving DecidableEq

/-- `src/qn_proxy.rs` lines 139-144: `make_cache_key` — sort the parameter
pairs lexicographically by key then value, join as `k=v&...`, and format
`METHOD|PATH?QS`. -/
def make_cache_key (method path : String) (params : List (String × String)) :
    String :=
  let sorted := sortPairs params
  let qs := joinAmp (sorted.map (fun kv => kv.1 ++ "=" ++ kv.2))
  method ++ "|" ++ path ++ "?" ++ qs

/-- `src/qn_proxy.rs` lines 155-161: `class_base_ttl` — substring matching
on the full cache key. -/
def class_base_ttl (cfg : ProxyConfig) (key : String) : Nat :=
  if strContains key "/tokens/" then cfg.ttl_warm
  else if strContains key "/pools/" then cfg.ttl_warm
  else if strContains key "/dexes" then cfg.ttl_cold
  else if strContains key "/search" then cfg.ttl_cold
  else cfg.ttl_warm

/-- `src/qn_proxy.rs` lines 146-153: `choose_ttl`. -/
def choose_ttl (cfg : ProxyConfig) (pop : List (String × ℚ)) (key : String) :
    Nat :=
  let p := (alookup pop key).getD 0
  if cfg.hot_threshold ≤ p then cfg.ttl_hot
  else if cfg.warm_threshold ≤ p then cfg.ttl_warm
  else class_base_ttl cfg key

/-- `src/qn_proxy.rs` lines 163-167: `bump_popularity` — `or_insert(0.0)`,
then `v = *entry + 1.0; *entry = v.min(1_000_000.0)`. -/
def bump_popularity (pop : List (String × ℚ)) (key : String) :
    List (String × ℚ) :=
  let cur := (alookup pop key).getD 0
  upsert pop key (qmin (cur + 1) 1000000)

/-- `src/db.rs` lines 286-300: `http_cache_get` — select `(status, body,
expires_at)` by key with no freshness filter; when a row exists, update its
`last_accessed` and `popularity := popularity * 0.95 + 1.0` in place.
Returns the selected triple and the updated table. -/
def http_cache_get (l2 : List (String × L2Row)) (key : String)
    (now_epoch : Int) : Option (Nat × String × Int) × List (String × L2Row) :=
  match alookup l2 key with
  | none => (none, l2)
  | some r =>
    (some (r.status, r.body, r.expires_at),
     upsert l2 key { r with popularity := r.popularity * (95/100 : ℚ) + 1,
                            last_accessed := now_epoch })

/-- `src/db.rs` lines 302-311: `http_cache_put` — insert with
`expires_at := now + ttl` and popularity `1.0`; on conflict overwrite only
`status`, `body`, `stored_at`, `expires_at`. -/
def http_cache_put (l2 : List (String × L2Row)) (key : String) (status : Nat)
    (body : String) (ttl_secs : Int) (now_epoch : Int) :
    List (String × L2Row) :=
  let expires_at := now_epoch + ttl_secs
  match alookup l2 key with
  | none =>
    upsert l2 key { status := status, body := body, stored_at := now_epoch,
                    expires_at := expires_at, popularity := 1,
                    last_accessed := now_epoch }
  | some r =>
    upsert l2 key { r with status := status, body := body,
                           stored_at := now_epoch, expires_at := expires_at }

/-- `src/db.rs` lines 326-330: `http_cache_cleanup_expired` —
`DELETE FROM http_cache WHERE expires_at < now LIMIT max_rows`.  Deletes up
to `max_rows` rows whose `expires_at` is strictly before `now_epoch`
(concretizing SQL's unspecified `LIMIT` order by list order); returns the
remaining table and the deleted count. -/
def http_cache_cleanup_expired (l2 : List (String × L2Row)) (now_epoch : Int)
    (max_rows : Nat) : List (String × L2Row) × Nat :=
  match l2 with
  | [] => ([], 0)
  | (k, r) :: rest =>
    if r.expires_at < now_epoch ∧ 0 < max_rows then
      let (l, n) := http_cache_cleanup_expired rest now_epoch (max_rows - 1)
      (l, n + 1)
    else
      let (l, n) := http_cache_cleanup_expired rest now_epoch max_rows
      ((k, r) :: l, n)

/-- `src/qn_proxy.rs` line 292: the sweep step of `spawn_hotset_refresher`
calls `http_cache_cleanup_expired(epoch_seconds(), 1000)` with the current
epoch time. -/
def hotset_sweep (l2 : List (String × L2Row)) (now_epoch : Int) :
    List (String × L2Row) × Nat :=
  http_cache_cleanup_expired l2 now_epoch 1000

/-- `src/qn_proxy.rs` lines 123-137: `build_url`.  Errors exactly when the
configured base URL is the empty string.  The URL value itself (path join
and query encoding) is irrelevant to every claim and is composed textually;
`Url::parse` of a nonempty base is assumed to succeed. -/
def build_url (cfg : ProxyConfig) (path : String)
    (params : List (String × String)) : Except AppError String :=
  if cfg.base_url = "" then
    .error (.BadRequest "QNODE_BASE_URL not configured")
  else
    .ok (cfg.base_url ++ path ++ "?" ++
         joinAmp (params.map (fun kv => kv.1 ++ "=" ++ kv.2)))

/-- Observable side effects of a leader run, in order. -/
inductive Event where
  | permitAcquired
  | permitDropped
  | upstreamCall (path : String) (params : List (String × String))
deriving DecidableEq

/-- Environment outcome of the leader's upstream HTTP call
(`client.get(url).send()` then `resp.text()`). -/
inductive UpstreamResult where
  | response (status : Nat) (body : String)
  | sendError (msg : String)
  | textError (msg : String)
deriving DecidableEq

/-- `src/qn_proxy.rs` lines 225-247: `finish_flight` — remove the entry and
take its waiters; deliver `Ok` to every waiter, or for an error deliver the
original error to the first waiter and `AppError::Anyhow(msg)` (the
leader's message string) to each further waiter.  Returns the registry
after removal and the delivery list `(waiter id, delivered result)`. -/
def finish_flight (inflight : List (String × List Nat)) (key : String)
    (result : FetchResult) :
    List (String × List Nat) × List (Nat × FetchResult) :=
  let waiters := (alookup inflight key).getD []
  let inflight' := aremove inflight key
  let deliveries :=
    match result with
    | .ok s b => waiters.map (fun w => (w, FetchResult.ok s b))
    | .err e =>
      match waiters with
      | [] => []
      | w0 :: rest =>
        (w0, FetchResult.err e) ::
          rest.map (fun w => (w, FetchResult.err (.Anyhow e.message)))
  (inflight', deliveries)

/-- `src/qn_proxy.rs` lines 177-196: the registration prologue of
`fetch_singleflight`, performed atomically under the registry mutex.  If an
entry for the key exists the caller appends a waiter handle and is a
follower; otherwise it inserts an entry with an empty waiter list and is
the leader.  Returns the new registry and whether this caller leads. -/
def fetch_singleflight_register (inflight : List (String × List Nat))
    (key : String) (wid : Nat) : List (String × List Nat) × Bool :=
  match alookup inflight key with
  | some ws => (upsert inflight key (ws ++ [wid]), false)
  | none => (upsert inflight key [], true)

/-- Result of a leader's continuation: final state, returned result,
events, and waiter deliveries made by `finish_flight` (empty when the
flight was never finished). -/
structure LeaderRun where
  state : ProxyState
  result : FetchResult
  events : List Event
  deliveries : List (Nat × FetchResult)
deriving DecidableEq

/-- `src/qn_proxy.rs` lines 197-223: the leader continuation of
`fetch_singleflight`.  `budgetGranted` is the outcome of
`try_consume_budget(1)`; `upstream` the outcome of the HTTP call.  Note the
three `?` early returns (URL build failure, send failure, body-read
failure) return the error WITHOUT calling `finish_flight`; the permit is
released by RAII in every path, the explicit `drop(permit)` points are
lines 199 and 214. -/
def fetch_singleflight_leader (cfg : ProxyConfig) (hasDb : Bool)
    (st : ProxyState) (key path : String) (params : List (String × String))
    (budgetGranted : Bool) (upstream : UpstreamResult) (now : Nat)
    (now_epoch : Int) : LeaderRun :=
  if budgetGranted = false then
    -- lines 198-209: budget denied: drop permit, last-chance L2 lookup
    let ev := [Event.permitAcquired, Event.permitDropped]
    if hasDb && cfg.enable_l2 then
      match http_cache_get st.l2 key now_epoch with
      | (some (stc, body, _), l2') =>
        let status := (status_from_code stc).getD 200
        let (ifl', dels) := finish_flight st.inflight key (.ok status body)
        ⟨{ st with l2 := l2', inflight := ifl' }, .ok status body, ev, dels⟩
      | (none, l2') =>
        let (ifl', dels) := finish_flight st.inflight key (.err .TooManyRequests)
        ⟨{ st with l2 := l2', inflight := ifl' }, .err .TooManyRequests, ev, dels⟩
    else
      let (ifl', dels) := finish_flight st.inflight key (.err .TooManyRequests)
      ⟨{ st with inflight := ifl' }, .err .TooManyRequests, ev, dels⟩
  else
    match build_url cfg path params with
    | .error e =>
      -- line 210 `?`: early return, flight NOT finished
      ⟨st, .err e, [Event.permitAcquired, Event.permitDropped], []⟩
    | .ok _ =>
      match upstream with
      | .sendError m =>
        -- line 211 `?`: early return, flight NOT finished
        ⟨st, .err (.Anyhow m),
         [Event.permitAcquired, Event.upstreamCall path params,
          Event.permitDropped], []⟩
      | .textError m =>
        -- line 213 `?`: early return, flight NOT finished
        ⟨st, .err (.Anyhow m),
         [Event.permitAcquired, Event.upstreamCall path params,
          Event.permitDropped], []⟩
      | .response stc body =>
        -- lines 212-222: store to L1, optionally L2, finish the flight
        let status := (status_from_code stc).getD 500
        let cache' := upsert st.cache key ⟨status, body, now⟩
        let l2' :=
          if hasDb && cfg.enable_l2 then
            http_cache_put st.l2 key status body
              (Int.ofNat (choose_ttl cfg st.popularity key)) now_epoch
          else st.l2
        let (ifl', dels) := finish_flight st.inflight key (.ok status body)
        ⟨{ st with cache := cache', l2 := l2', inflight := ifl' },
         .ok status body,
         [Event.permitAcquired, Event.upstreamCall path params,
          Event.permitDropped], dels⟩

/-- Which branch of `get_cached` produced the outcome. -/
inductive GetPath where
  | l1Hit
  | l2Promote
  | l2Stale
  | missFetch
deriving DecidableEq

/-- Outcome of one `get_cached` call: either a returned result, or this
caller registered as a single-flight follower and awaits delivery. -/
inductive GetOutcome where
  | done (r : FetchResult)
  | following (wid : Nat)
deriving DecidableEq

/-- Result of one `get_cached` call. -/
structure GetRun where
  state : ProxyState
  outcome : GetOutcome
  branch : GetPath
  spawnedRefresh : List String
  events : List Event
  deliveries : List (Nat × FetchResult)
deriving DecidableEq

/-- `src/qn_proxy.rs` lines 100-104: the L1 check of `get_cached` — a hit
iff an entry exists and `now - stored_at < ttl`. -/
def l1_hit (cfg : ProxyConfig) (pop : List (String × ℚ))
    (cache : List (String × CachedEntry)) (key : String) (now : Nat) : Bool :=
  match alookup cache key with
  | some e => decide (now - e.stored_at < choose_ttl cfg pop key)
  | none => false

/-- `src/qn_proxy.rs` lines 95-121: `get_cached`.  `wid` is the waiter id
this caller would register under in the single-flight map; `budgetGranted`
and `upstream` are the environment outcomes used if this caller becomes
the miss-path leader.  The spawned stale-refresh task (line 115) is
recorded in `spawnedRefresh` rather than executed. -/
def get_cached (cfg : ProxyConfig) (hasDb : Bool) (st : ProxyState)
    (wid : Nat) (path : String) (params : List (String × String)) (now : Nat)
    (now_epoch : Int) (budgetGranted : Bool) (upstream : UpstreamResult) :
    GetRun :=
  let key := make_cache_key "GET" path params
  let pop' := bump_popularity st.popularity key
  let st1 : ProxyState := { st with popularity := pop' }
  if l1_hit cfg pop' st1.cache key now then
    match alookup st1.cache key with
    | some e => ⟨st1, .done (.ok e.status e.body), .l1Hit, [], [], []⟩
    | none => ⟨st1, .done (.err (.Anyhow "unreachable")), .l1Hit, [], [], []⟩
  else
    -- lines 105-119: L2 check (the SELECT's popularity UPDATE persists even
    -- when the row is beyond the grace window and the call falls through)
    let l2step :=
      if hasDb && cfg.enable_l2 then http_cache_get st1.l2 key now_epoch
      else (none, st1.l2)
    let st2 : ProxyState := { st1 with l2 := l2step.2 }
    let served : Option GetRun :=
      match l2step.1 with
      | some (stc, body, expires_at) =>
        if 0 ≤ expires_at - now_epoch then
          -- lines 108-112: fresh row, promote to L1 with stored_at := now
          let status := (status_from_code stc).getD 200
          some ⟨{ st2 with cache := upsert st2.cache key ⟨status, body, now⟩ },
                .done (.ok status body), .l2Promote, [], [], []⟩
        else if now_epoch - expires_at ≤ (cfg.max_stale : Int) then
          -- lines 113-117: stale within grace: serve stale, spawn refresh
          let status := (status_from_code stc).getD 200
          some ⟨st2, .done (.ok status body), .l2Stale, [key], [], []⟩
        else
          none
      | none => none
    match served with
    | some run => run
    | none =>
      -- line 120: miss path, single-flight
      let (ifl', leader) := fetch_singleflight_register st2.inflight key wid
      if leader then
        let run := fetch_singleflight_leader cfg hasDb
          { st2 with inflight := ifl' } key path params budgetGranted upstream
          now now_epoch
        ⟨run.state, .done run.result, .missFetch, [], run.events,
         run.deliveries⟩
      else
        ⟨{ st2 with inflight := ifl' }, .following wid, .missFetch, [], [], []⟩

/-- Linearization of `N` concurrent callers reaching the single-flight
registration for the same key, in arrival order; returns the final registry
and each caller's leader flag. -/
def register_all (inflight : List (String × List Nat)) (key : String)
    (wids : List Nat) : List (String × List Nat) × List Bool :=
  match wids with
  | [] => (inflight, [])
  | w :: rest =>
    let (ifl', isLeader) := fetch_singleflight_register inflight key w
    let (ifl'', roles) := register_all ifl' key rest
    (ifl'', isLeader :: roles)

/-- The cached-response part of an L2 row: everything except the
access-bookkeeping columns (`popularity`, `last_accessed`). -/
def rowContent (r : L2Row) : Nat × String × Int × Int :=
  (r.status, r.body, r.stored_at, r.expires_at)

/-- The L2 table restricted to its cached-response columns. -/
def l2Content (l2 : List (String × L2Row)) :
    List (String × (Nat × String × Int × Int)) :=
  l2.map (fun kr => (kr.1, rowContent kr.2))

/-- The TTL resolution as claim C9 states it: the fallback path class is
decided by the request PATH alone (query parameters play no role). -/
def choose_ttl_claimC9 (cfg : ProxyConfig) (pop : List (String × ℚ))
    (path : String) (params : List (String × String)) : Nat :=
  let key := make_cache_key "GET" path params
  let p := (alookup pop key).getD 0
  if cfg.hot_threshold ≤ p then cfg.ttl_hot
  else if cfg.warm_threshold ≤ p then cfg.ttl_warm
  else if strContains path "/tokens/" || strContains path "/pools/" then cfg.ttl_warm
  else if strContains path "/dexes" || strContains path "/search" then cfg.ttl_cold
  else cfg.ttl_warm

/-- Recognizer for upstream-call events. -/
def isUpstreamCall : Event → Bool
  | .upstreamCall _ _ => true
  | _ => false

/-! ### Association-list laws used by the proofs -/

theorem alookup_upsert_self {α : Type} (m : List (String × α)) (k : String)
    (v : α) : alookup (upsert m k v) k = some v := by
  induction m with
  | nil => simp [upsert, alookup]
  | cons hd tl ih =>
    by_cases h : hd.1 = k <;> simp [upsert, alookup, h, ih]

theorem upsert_self_of_alookup {α : Type} (m : List (String × α)) (k : String)
    (v : α) (h : alookup m k = some v) : upsert m k v = m := by
  induction m with
  | nil => simp [alookup] at h
  | cons hd tl ih =>
    obtain ⟨k', v'⟩ := hd
    by_cases hk : k' = k
    · simp [alookup, hk] at h
      simp [upsert, hk, h]
    · simp [alookup, hk] at h
      simp [upsert, hk, ih h]

theorem upsert_upsert {α : Type} (m : List (String × α)) (k : String)
    (v v' : α) : upsert (upsert m k v) k v' = upsert m k v' := by
  induction m with
  | nil => simp [upsert]
  | cons hd tl ih =>
    by_cases h : hd.1 = k <;> simp [upsert, h, ih]

theorem upsert_eq_append {α : Type} (m : List (String × α)) (k : String)
    (v : α) (h : alookup m k = none) : upsert m k v = m ++ [(k, v)] := by
  induction m with
  | nil => simp [upsert]
  | cons hd tl ih =>
    by_cases hk : hd.1 = k
    · simp [alookup, hk] at h
    · simp [alookup, hk] at h
      simp [upsert, hk, ih h]

theorem aremove_append {α : Type} (m : List (String × α)) (k : String)
    (v : α) (h : alookup m k = none) : aremove (m ++ [(k, v)]) k = m := by
  induction m with
  | nil => simp [aremove]
  | cons hd tl ih =>
    by_cases hk : hd.1 = k
    · simp [alookup, hk] at h
    · simp [alookup, hk] at h
      simp [aremove, hk, ih h]

theorem aremove_upsert {α : Type} (m : List (String × α)) (k : String)
    (v : α) (h : alookup m k = none) :
    aremove (upsert m k v) k = m := by
  rw [upsert_eq_append m k v h, aremove_append m k v h]

theorem alookup_eq_none_of_not_mem {α : Type} (m : List (String × α))
    (k : String) (h : k ∉ m.map Prod.fst) : alookup m k = none := by
  induction m with
  | nil => simp [alookup]
  | cons hd tl ih =>
    simp only [List.map_cons, List.mem_cons] at h
    push_neg at h
    have hne : hd.1 ≠ k := fun hh => h.1 hh.symm
    simp [alookup, hne, ih h.2]

theorem alookup_aremove_nodup {α : Type} (m : List (String × α)) (k : String)
    (h : (m.map Prod.fst).Nodup) : alookup (aremove m k) k = none := by
  induction m with
  | nil => simp [aremove, alookup]
  | cons hd tl ih =>
    simp only [List.map_cons, List.nodup_cons] at h
    by_cases hk : hd.1 = k
    · subst hk
      simp only [aremove, if_pos rfl]
      exact alookup_eq_none_of_not_mem tl hd.1 h.1
    · simp [aremove, hk, alookup, ih h.2]

/-! ### Linearized single-flight registration -/

theorem register_all_waiters (key : String) (wids : List Nat) :
    ∀ (m : List (String × List Nat)) (ws : List Nat),
      alookup m key = some ws →
      register_all m key wids
        = (upsert m key (ws ++ wids), List.replicate wids.length false) := by
  induction wids with
  | nil =>
    intro m ws h
    simp [register_all, upsert_self_of_alookup m key ws h]
  | cons w rest ih =>
    intro m ws h
    simp only [register_all, fetch_singleflight_register, h]
    rw [ih (upsert m key (ws ++ [w])) (ws ++ [w]) (alookup_upsert_self ..)]
    simp [upsert_upsert, List.replicate_succ]

theorem register_all_from_empty (m : List (String × List Nat)) (key : String)
    (w : Nat) (rest : List Nat) (h : alookup m key = none) :
    register_all m key (w :: rest)
      = (upsert m key rest, true :: List.replicate rest.length false) := by
  simp only [register_all, fetch_singleflight_register, h]
  rw [register_all_waiters key rest (upsert m key []) [] (alookup_upsert_self ..)]
  simp [upsert_upsert]

/-! ### Cached-content view of the L2 table -/

theorem l2Content_upsert_same (l2 : List (String × L2Row))
    (k : String) (r r' : L2Row) (hl : alookup l2 k = some r)
    (hc : rowContent r' = rowContent r) :
    l2Content (upsert l2 k r') = l2Content l2 := by
  induction l2 with
  | nil => simp [alookup] at hl
  | cons hd tl ih =>
    obtain ⟨k', v'⟩ := hd
    by_cases hk : k' = k
    · simp [alookup, hk] at hl
      simp [upsert, hk, l2Content, rowContent, hc, hl]
      subst hl hk
      simpa [rowContent] using congrArg id hc
    · simp [alookup, hk] at hl
      simp [upsert, hk, l2Content] at ih ⊢
      exact ih hl

theorem alookup_http_cache_put_self (l2 : List (String × L2Row)) (k : String)
    (s : Nat) (b : String) (ttl now : Int) :
    alookup (http_cache_put l2 k s b ttl now) k
      = some (match alookup l2 k with
          | none =>
            { status := s, body := b, stored_at := now,
              expires_at := now + ttl, popularity := 1, last_accessed := now }
          | some r =>
            { r with status := s, body := b, stored_at := now,
                     expires_at := now + ttl }) := by
  unfold http_cache_put
  cases h : alookup l2 k <;> simp [h, alookup_upsert_self]

/-! ### Sweep lemmas -/

theorem cleanup_keeps_unexpired (now : Int) :
    ∀ (l2 : List (String × L2Row)) (fuel : Nat) (k : String) (r : L2Row),
      (k, r) ∈ l2 → ¬ (r.expires_at < now) →
      (k, r) ∈ (http_cache_cleanup_expired l2 now fuel).1 := by
  intro l2
  induction l2 with
  | nil => intro fuel k r hm; simp at hm
  | cons hd tl ih =>
    intro fuel k r hm hexp
    by_cases hdel : hd.2.expires_at < now ∧ 0 < fuel
    · simp only [http_cache_cleanup_expired, if_pos hdel]
      rcases List.mem_cons.mp hm with heq | htl
      · rw [← heq] at hdel
        exact absurd hdel.1 hexp
      · exact ih (fuel - 1) k r htl hexp
    · simp only [http_cache_cleanup_expired, if_neg hdel]
      rcases List.mem_cons.mp hm with heq | htl
      · rw [heq]
        exact List.mem_cons_self _ _
      · exact List.mem_cons_of_mem _ (ih fuel k r htl hexp)

/-! ### Popularity-map behaviour of the coordinator -/

theorem leader_popularity_eq (cfg : ProxyConfig) (hasDb : Bool) (st : ProxyState)
    (key path : String) (params : List (String × String)) (bg : Bool)
    (up : UpstreamResult) (now : Nat) (now_epoch : Int) :
    (fetch_singleflight_leader cfg hasDb st key path params bg up now now_epoch).state.popularity
      = st.popularity := by
  unfold fetch_singleflight_leader
  split
  · split
    · rcases h : http_cache_get st.l2 key now_epoch with ⟨res, l2'⟩
      rcases res with _ | ⟨s, b, e⟩ <;> simp [h]
    · simp
  · split
    · simp
    · split <;> simp

theorem get_cached_popularity (cfg : ProxyConfig) (hasDb : Bool) (st : ProxyState)
    (wid : Nat) (path : String) (params : List (String × String)) (now : Nat)
    (now_epoch : Int) (bg : Bool) (up : UpstreamResult) :
    (get_cached cfg hasDb st wid path params now now_epoch bg up).state.popularity
      = bump_popularity st.popularity (make_cache_key "GET" path params) := by
  unfold get_cached
  dsimp only
  split
  · split <;> simp
  · split
    · rename_i run heq
      split at heq
      · split at heq
        · cases heq; simp
        · split at heq
          · cases heq; simp
          · simp at heq
      · simp at heq
    · split
      · exact leader_popularity_eq ..
      · simp

/-! ### Claim C3 -/

/-- C3: the claim states that every read updates the in-memory popularity
score by `p ← min(10^6, p · 0.95 + 1.0)`.  False on the code: at current
score `p = 20`, `bump_popularity` (qn_proxy.rs lines 163-167) stores `21`,
not `min(10^6, 20 · 0.95 + 1.0) = 20`. -/
theorem C3_counterexample :
    bump_popularity [("k3", 20)] "k3"
      ≠ [("k3", qmin ((20 : ℚ) * (95/100) + 1) 1000000)] := by
  norm_num [bump_popularity, alookup, upsert, qmin]

/-- C3 (amended): on every read (hit or miss, every branch of `get_cached`)
the coordinator updates the fingerprint's in-memory popularity score by
`p ← min(10^6, p + 1.0)`; no 0.95 decay factor is applied to the in-memory
score (the decay exists only in the L2 SQL update of `http_cache_get`). -/
theorem C3_bump_without_decay (cfg : ProxyConfig) (hasDb : Bool)
    (st : ProxyState) (wid : Nat) (path : String)
    (params : List (String × String)) (now : Nat) (now_epoch : Int)
    (bg : Bool) (up : UpstreamResult) :
    (get_cached cfg hasDb st wid path params now now_epoch bg up).state.popularity
      = bump_popularity st.popularity (make_cache_key "GET" path params)
    ∧ alookup (bump_popularity st.popularity (make_cache_key "GET" path params))
        (make_cache_key "GET" path params)
      = some (qmin
          ((alookup st.popularity (make_cache_key "GET" path params)).getD 0 + 1)
          1000000) := by
  refine ⟨get_cached_popularity .., ?_⟩
  unfold bump_popularity
  exact alookup_upsert_self ..

/-! ### Claim C5 -/

/-- C5: the claim states the sweep deletes an L2 row only when
`expires_at + max_stale < now`.  False on the code: `http_cache_cleanup_expired`
(db.rs line 328) deletes on `expires_at < now`, and the refresher (qn_proxy.rs
line 292) passes the bare current epoch.  A row with `expires_at = 100` is
deleted by a sweep at `now = 150` although `100 + 180 < 150` fails
(`max_stale` default 180), i.e. the row was still inside the grace window. -/
theorem C5_counterexample :
    (hotset_sweep [("k5", ⟨200, "body", 40, 100, 1, 40⟩)] 150).1 = []
    ∧ ¬ ((100 : Int) + (({ base_url := "u" } : ProxyConfig).max_stale : Int)
          < 150) := by
  decide

/-- C5 (amended): the sweep step deletes an L2 row only when
`expires_at < now` — already at expiry, without the `max_stale` grace —
and never removes a row whose `expires_at` is still in the future. -/
theorem C5_sweep_deletes_expired_only (l2 : List (String × L2Row)) (now : Int)
    (k : String) (r : L2Row) (hmem : (k, r) ∈ l2) :
    ((k, r) ∉ (hotset_sweep l2 now).1 → r.expires_at < now)
    ∧ (¬ (r.expires_at < now) → (k, r) ∈ (hotset_sweep l2 now).1) := by
  constructor
  · intro hout
    by_contra hexp
    exact hout (cleanup_keeps_unexpired now l2 1000 k r hmem hexp)
  · intro hexp
    exact cleanup_keeps_unexpired now l2 1000 k r hmem hexp

/-- C5 witness: a fresh row (`expires_at = 900`, sweep at `now = 150`)
survives the sweep. -/
theorem C5_sweep_witness :
    ("kw5", (⟨200, "fresh", 40, 900, 1, 40⟩ : L2Row)) ∈
      (hotset_sweep [("kw5", ⟨200, "fresh", 40, 900, 1, 40⟩)] 150).1 :=
  (C5_sweep_deletes_expired_only _ 150 "kw5" _ (by decide)).2 (by decide)

/-! ### Claim C7 -/

/-- C7: the claim states every additional waiter receives a wrapper error of
the same kind as the leader's error, mapping to the same HTTP status.  False
on the code: for a leader error `TooManyRequests` with waiters `[1, 2]`,
`finish_flight` (qn_proxy.rs lines 236-245) delivers the original
(status 429) to waiter 1 but an `Anyhow` wrapper (status 500) to waiter 2. -/
theorem C7_counterexample :
    (finish_flight [("k7", [1, 2])] "k7" (.err .TooManyRequests)).2
      = [(1, .err .TooManyRequests), (2, .err (.Anyhow "too many requests"))]
    ∧ AppError.status (.Anyhow "too many requests") = 500
    ∧ AppError.status .TooManyRequests = 429 := by
  decide

/-- C7 (amended): when a leader finishes a flight with an error, the first
waiter receives the original error; every additional waiter receives an
`Anyhow` wrapper carrying the leader's error message, and that wrapper maps
to HTTP 500 regardless of the leader's error kind (so the kinds and statuses
coincide only when the leader's error itself maps to 500). -/
theorem C7_error_fanout (inflight : List (String × List Nat)) (key : String)
    (e : AppError) (w0 : Nat) (rest : List Nat)
    (h : alookup inflight key = some (w0 :: rest)) :
    (finish_flight inflight key (.err e)).2
      = (w0, FetchResult.err e)
          :: rest.map (fun w => (w, FetchResult.err (.Anyhow e.message)))
    ∧ (AppError.Anyhow e.message).status = 500 := by
  unfold finish_flight
  simp [h, AppError.status]

/-- C7 witness: fan-out of a `NotFound` leader error to waiters `[5, 6, 7]`. -/
theorem C7_error_fanout_witness :
    (finish_flight [("kw7", [5, 6, 7])] "kw7" (.err .NotFound)).2
      = [(5, FetchResult.err .NotFound),
         (6, FetchResult.err (.Anyhow "not found")),
         (7, FetchResult.err (.Anyhow "not found"))]
    ∧ (AppError.Anyhow (AppError.message .NotFound)).status = 500 :=
  C7_error_fanout [("kw7", [5, 6, 7])] "kw7" .NotFound 5 [6, 7] (by decide)

/-! ### Claim C9 -/

/-- C9: the claim states the path class is decided by the request PATH alone.
False on the code: `class_base_ttl` (qn_proxy.rs lines 155-161) matches on
the full cache key `GET|PATH?QUERY`.  For path `/v1/prices` with query
parameter `q=/dexes` the code selects the cold TTL (300) while the claim's
path-only rule selects warm (45). -/
theorem C9_counterexample :
    choose_ttl { base_url := "u/" } []
        (make_cache_key "GET" "/v1/prices" [("q", "/dexes")]) = 300
    ∧ choose_ttl_claimC9 { base_url := "u/" } [] "/v1/prices" [("q", "/dexes")]
        = 45 := by
  decide

/-- C9 (amended): TTL selection returns the hot TTL when popularity ≥ HOT
(default 50), else the warm TTL when ≥ WARM (default 10), else the path
class computed by substring matching on the FULL fingerprint
`GET|PATH?QUERY` — `/tokens/` or `/pools/` → warm, else `/dexes` or
`/search` → cold, else warm — so query-parameter text participates in the
class. -/
theorem C9_ttl_resolution (cfg : ProxyConfig) (pop : List (String × ℚ))
    (key : String) :
    choose_ttl cfg pop key
      = (let p := (alookup pop key).getD 0
         if cfg.hot_threshold ≤ p then cfg.ttl_hot
         else if cfg.warm_threshold ≤ p then cfg.ttl_warm
         else if strContains key "/tokens/" || strContains key "/pools/" then
           cfg.ttl_warm
         else if strContains key "/dexes" || strContains key "/search" then
           cfg.ttl_cold
         else cfg.ttl_warm) := by
  unfold choose_ttl class_base_ttl
  cases h1 : strContains key "/tokens/" <;>
    cases h2 : strContains key "/pools/" <;>
      cases h3 : strContains key "/dexes" <;>
        cases h4 : strContains key "/search" <;>
          simp [h1, h2, h3, h4]

/-! ### Claim C4 -/

/-- C4: the claim states upstream 5xx responses are not cached.  False on
the code: `fetch_singleflight` (qn_proxy.rs lines 212-220) stores every
received HTTP response unconditionally.  A 500 reply is written to L1 and
to the L2 `http_cache` table (here with the warm 45 s TTL selected for the
fingerprint). -/
theorem C4_counterexample :
    alookup (fetch_singleflight_leader { base_url := "https://up/" } true
        ⟨[], [], [("GET|/a?", [])], []⟩ "GET|/a?" "/a" [] true
        (.response 500 "oops") 7 1000).state.cache "GET|/a?"
      = some ⟨500, "oops", 7⟩
    ∧ alookup (fetch_singleflight_leader { base_url := "https://up/" } true
        ⟨[], [], [("GET|/a?", [])], []⟩ "GET|/a?" "/a" [] true
        (.response 500 "oops") 7 1000).state.l2 "GET|/a?"
      = some ⟨500, "oops", 1000, 1045, 1, 1000⟩ := by
  decide

/-- C4 (amended): every upstream reply that arrives as an HTTP response —
5xx included — is cached identically: the leader stores it to L1 with the
current instant and, when the durable tier is enabled, upserts it into L2
with the selected TTL.  Only network-level send/read failures leave the
caches unwritten. -/
theorem C4_cache_all_responses (cfg : ProxyConfig) (hasDb : Bool)
    (st : ProxyState) (key path : String) (params : List (String × String))
    (stc : Nat) (body : String) (now : Nat) (now_epoch : Int)
    (hurl : cfg.base_url ≠ "") :
    (fetch_singleflight_leader cfg hasDb st key path params true
        (.response stc body) now now_epoch).result
      = .ok ((status_from_code stc).getD 500) body
    ∧ alookup (fetch_singleflight_leader cfg hasDb st key path params true
        (.response stc body) now now_epoch).state.cache key
      = some ⟨(status_from_code stc).getD 500, body, now⟩
    ∧ alookup (fetch_singleflight_leader cfg hasDb st key path params true
        (.response stc body) now now_epoch).state.l2 key
      = (if hasDb && cfg.enable_l2 then
           some (match alookup st.l2 key with
             | none =>
               { status := (status_from_code stc).getD 500, body := body,
                 stored_at := now_epoch,
                 expires_at := now_epoch
                   + Int.ofNat (choose_ttl cfg st.popularity key),
                 popularity := 1, last_accessed := now_epoch }
             | some r =>
               { r with status := (status_from_code stc).getD 500, body := body,
                        stored_at := now_epoch,
                        expires_at := now_epoch
                          + Int.ofNat (choose_ttl cfg st.popularity key) })
         else alookup st.l2 key) := by
  unfold fetch_singleflight_leader
  rw [if_neg (by decide : ¬ (true = false))]
  unfold build_url
  rw [if_neg hurl]
  dsimp only
  refine ⟨rfl, alookup_upsert_self .., ?_⟩
  by_cases hdb : (hasDb && cfg.enable_l2) = true
  · rw [if_pos hdb, if_pos hdb, alookup_http_cache_put_self]
  · rw [if_neg hdb, if_neg hdb]

/-- C4 witness: a 503 reply is stored to L1 and L2. -/
theorem C4_cache_all_responses_witness :
    (fetch_singleflight_leader { base_url := "https://up/" } true
        ⟨[], [], [("GET|/b?", [])], []⟩ "GET|/b?" "/b" [] true
        (.response 503 "bad") 9 2000).result = .ok 503 "bad"
    ∧ alookup (fetch_singleflight_leader { base_url := "https://up/" } true
        ⟨[], [], [("GET|/b?", [])], []⟩ "GET|/b?" "/b" [] true
        (.response 503 "bad") 9 2000).state.cache "GET|/b?"
      = some ⟨503, "bad", 9⟩
    ∧ alookup (fetch_singleflight_leader { base_url := "https://up/" } true
        ⟨[], [], [("GET|/b?", [])], []⟩ "GET|/b?" "/b" [] true
        (.response 503 "bad") 9 2000).state.l2 "GET|/b?"
      = some ⟨503, "bad", 2000, 2045, 1, 2000⟩ :=
  C4_cache_all_responses { base_url := "https://up/" } true
    ⟨[], [], [("GET|/b?", [])], []⟩ "GET|/b?" "/b" [] 503 "bad" 9 2000
    (by decide)

/-! ### Claim C6 -/

/-- C6: when L1 misses and an L2 row exists for the fingerprint, a fresh row
(`expires_at ≥ now_epoch`) is promoted to L1 with `stored_at := now` and its
`(status, body)` returned; a stale row within the `max_stale` grace window
is returned immediately while an asynchronous refresh of the fingerprint is
spawned, with no inline fetch (no events) in either case. -/
theorem C6_l2_promote_and_stale (cfg : ProxyConfig) (hasDb : Bool)
    (st : ProxyState) (wid : Nat) (path : String)
    (params : List (String × String)) (now : Nat) (now_epoch : Int)
    (bg : Bool) (up : UpstreamResult) (r : L2Row)
    (hdb : hasDb = true) (hl2 : cfg.enable_l2 = true)
    (hrow : alookup st.l2 (make_cache_key "GET" path params) = some r)
    (hmiss : l1_hit cfg
        (bump_popularity st.popularity (make_cache_key "GET" path params))
        st.cache (make_cache_key "GET" path params) now = false)
    (hgrace : now_epoch - r.expires_at ≤ (cfg.max_stale : Int)) :
    (get_cached cfg hasDb st wid path params now now_epoch bg up).outcome
      = .done (.ok ((status_from_code r.status).getD 200) r.body)
    ∧ (get_cached cfg hasDb st wid path params now now_epoch bg up).events = []
    ∧ (if 0 ≤ r.expires_at - now_epoch then
         (get_cached cfg hasDb st wid path params now now_epoch bg up).branch
             = .l2Promote
         ∧ alookup (get_cached cfg hasDb st wid path params now now_epoch
               bg up).state.cache (make_cache_key "GET" path params)
             = some ⟨(status_from_code r.status).getD 200, r.body, now⟩
         ∧ (get_cached cfg hasDb st wid path params now now_epoch
               bg up).spawnedRefresh = []
       else
         (get_cached cfg hasDb st wid path params now now_epoch bg up).branch
             = .l2Stale
         ∧ (get_cached cfg hasDb st wid path params now now_epoch
               bg up).state.cache = st.cache
         ∧ (get_cached cfg hasDb st wid path params now now_epoch
               bg up).spawnedRefresh = [make_cache_key "GET" path params]) := by
  unfold get_cached
  dsimp only
  rw [hmiss]
  simp only [Bool.false_eq_true, if_false, hdb, hl2, Bool.and_self, if_true]
  unfold http_cache_get
  rw [hrow]
  dsimp only
  by_cases hf : 0 ≤ r.expires_at - now_epoch
  · simp [hf, alookup_upsert_self]
  · rw [if_neg hf, if_pos hgrace, if_neg hf]
    simp

/-- C6 witness: a fresh L2 row (`expires_at = 5000 ≥ now_epoch = 4000`) is
served on an L1 miss. -/
theorem C6_l2_promote_witness :
    (get_cached { base_url := "https://u/" } true
        ⟨[], [], [], [("GET|/w6?", ⟨404, "nope", 10, 5000, 2, 10⟩)]⟩
        0 "/w6" [] 3 4000 true (.response 200 "x")).outcome
      = .done (.ok 404 "nope") :=
  (C6_l2_promote_and_stale { base_url := "https://u/" } true
      ⟨[], [], [], [("GET|/w6?", ⟨404, "nope", 10, 5000, 2, 10⟩)]⟩
      0 "/w6" [] 3 4000 true (.response 200 "x") ⟨404, "nope", 10, 5000, 2, 10⟩
      rfl rfl (by decide) (by decide) (by decide)).1

/-! ### Claim C8 -/

/-- C8: when the leader is denied by the budget, it releases its concurrency
permit (events: acquire then drop, no upstream call), performs one last L2
lookup with no freshness condition, completes the flight with the row's
`(status, body)` when any row exists — fresh, stale, or past the grace
window — and only when no row exists completes with `TooManyRequests`,
which maps to HTTP 429.  The L1 cache is untouched and the single-flight
entry is removed either way. -/
theorem C8_budget_denied_fallback (cfg : ProxyConfig) (hasDb : Bool)
    (st : ProxyState) (key path : String) (params : List (String × String))
    (up : UpstreamResult) (now : Nat) (now_epoch : Int)
    (hdb : hasDb = true) (hl2 : cfg.enable_l2 = true)
    (hnodup : (st.inflight.map Prod.fst).Nodup) :
    (fetch_singleflight_leader cfg hasDb st key path params false up now now_epoch).events
      = [Event.permitAcquired, Event.permitDropped]
    ∧ (fetch_singleflight_leader cfg hasDb st key path params false up now now_epoch).result
      = (match alookup st.l2 key with
         | some r => FetchResult.ok ((status_from_code r.status).getD 200) r.body
         | none => FetchResult.err .TooManyRequests)
    ∧ (fetch_singleflight_leader cfg hasDb st key path params false up now now_epoch).state.cache
      = st.cache
    ∧ alookup (fetch_singleflight_leader cfg hasDb st key path params false up now now_epoch).state.inflight key
      = none
    ∧ (fetch_singleflight_leader cfg hasDb st key path params false up now now_epoch).deliveries
      = (finish_flight st.inflight key
          (fetch_singleflight_leader cfg hasDb st key path params false up now now_epoch).result).2
    ∧ AppError.status .TooManyRequests = 429 := by
  unfold fetch_singleflight_leader
  rw [if_pos rfl]
  simp only [hdb, hl2, Bool.and_self, if_true]
  unfold http_cache_get
  cases hr : alookup st.l2 key with
  | some r =>
    dsimp only
    refine ⟨rfl, rfl, rfl, ?_, rfl, rfl⟩
    exact alookup_aremove_nodup _ _ hnodup
  | none =>
    dsimp only
    refine ⟨rfl, rfl, rfl, ?_, rfl, rfl⟩
    exact alookup_aremove_nodup _ _ hnodup

/-- C8 witness: a budget-denied leader serves an L2 row whose `expires_at`
(20) is far past the grace window at `now_epoch = 99999`. -/
theorem C8_budget_denied_witness :
    (fetch_singleflight_leader { base_url := "https://u/" } true
        ⟨[], [], [("k8", [2, 3])], [("k8", ⟨200, "cached", 10, 20, 1, 10⟩)]⟩
        "k8" "/k8" [] false (.response 200 "x") 99 99999).result
      = .ok 200 "cached" :=
  (C8_budget_denied_fallback { base_url := "https://u/" } true
      ⟨[], [], [("k8", [2, 3])], [("k8", ⟨200, "cached", 10, 20, 1, 10⟩)]⟩
      "k8" "/k8" [] (.response 200 "x") 99 99999 rfl rfl (by decide)).2.1

/-! ### Claim C10 -/

theorem l2Content_http_cache_get (l2 : List (String × L2Row)) (k : String)
    (t : Int) : l2Content (http_cache_get l2 k t).2 = l2Content l2 := by
  unfold http_cache_get
  cases hr : alookup l2 k with
  | none => rfl
  | some r => exact l2Content_upsert_same l2 k r _ hr rfl

theorem leader_err_atomic (cfg : ProxyConfig) (hasDb : Bool) (st : ProxyState)
    (key path : String) (params : List (String × String)) (bg : Bool)
    (up : UpstreamResult) (now : Nat) (now_epoch : Int) (e : AppError)
    (h : (fetch_singleflight_leader cfg hasDb st key path params bg up now now_epoch).result
          = .err e) :
    (fetch_singleflight_leader cfg hasDb st key path params bg up now now_epoch).state.cache
      = st.cache
    ∧ l2Content (fetch_singleflight_leader cfg hasDb st key path params bg up now now_epoch).state.l2
      = l2Content st.l2 := by
  unfold fetch_singleflight_leader at h ⊢
  revert h
  split
  · split
    · unfold http_cache_get
      cases hr : alookup st.l2 key with
      | some r => intro h; simp at h
      | none => intro h; exact ⟨rfl, rfl⟩
    · intro h; exact ⟨rfl, rfl⟩
  · split
    · intro h; exact ⟨rfl, rfl⟩
    · split
      · intro h; exact ⟨rfl, rfl⟩
      · intro h; exact ⟨rfl, rfl⟩
      · intro h; simp at h

/-- C10: whenever `get_cached` returns an error (rate-limited, bad
configuration, or upstream failure), the L1 entry for the fingerprint is
neither inserted nor overwritten — the whole L1 map is unchanged — and no
L2 row's cached content (status, body, stored_at, expires_at) is written;
only the L2 access-bookkeeping columns (popularity, last_accessed) may have
been touched by the read. -/
theorem C10_error_atomicity (cfg : ProxyConfig) (hasDb : Bool)
    (st : ProxyState) (wid : Nat) (path : String)
    (params : List (String × String)) (now : Nat) (now_epoch : Int)
    (bg : Bool) (up : UpstreamResult) (e : AppError)
    (herr : (get_cached cfg hasDb st wid path params now now_epoch bg up).outcome
        = .done (.err e)) :
    (get_cached cfg hasDb st wid path params now now_epoch bg up).state.cache
      = st.cache
    ∧ l2Content (get_cached cfg hasDb st wid path params now now_epoch bg up).state.l2
      = l2Content st.l2 := by
  unfold get_cached at herr ⊢
  dsimp only at herr ⊢
  revert herr
  split
  · split
    · intro herr; simp at herr
    · intro herr; exact ⟨rfl, rfl⟩
  · split
    · rename_i run heq
      intro herr
      split at heq
      · split at heq
        · cases heq; simp at herr
        · split at heq
          · cases heq; simp at herr
          · simp at heq
      · simp at heq
    · split
      · intro herr
        simp only [GetOutcome.done.injEq] at herr
        have hh := leader_err_atomic cfg hasDb _ (make_cache_key "GET" path params)
          path params bg up now now_epoch e herr
        refine ⟨hh.1, ?_⟩
        rw [hh.2]
        by_cases hc : (hasDb && cfg.enable_l2) = true
        · rw [if_pos hc]
          exact l2Content_http_cache_get ..
        · rw [if_neg hc]
      · intro herr; simp at herr

/-- C10 witness: a budget-denied miss with the durable tier absent returns
`TooManyRequests` and leaves the L1 map untouched. -/
theorem C10_error_atomicity_witness :
    (get_cached { base_url := "https://u/" } false ⟨[], [], [], []⟩ 0 "/w10" []
        1 2 false (.sendError "x")).state.cache = [] :=
  (C10_error_atomicity { base_url := "https://u/" } false ⟨[], [], [], []⟩ 0
      "/w10" [] 1 2 false (.sendError "x") .TooManyRequests (by decide)).1

/-! ### Claim C1 -/

/-- C1: the claim states every leader execution removes the single-flight
entry and delivers the outcome to every waiter, completing with
`UpstreamUnavailable` on upstream failure.  The code violates this: the
`?` early returns in `fetch_singleflight` (qn_proxy.rs lines 210-213)
propagate URL-build and upstream errors WITHOUT calling `finish_flight`.
Exhibit: a leader whose upstream send fails returns `Anyhow` (there is no
`UpstreamUnavailable` variant in `AppError` at all), the inflight entry
with waiter 7 stays registered, and no delivery is made — the waiter is
abandoned and the fingerprint stays blocked. -/
theorem C1_flight_abandoned_on_upstream_error :
    (fetch_singleflight_leader { base_url := "https://up/" } true
        ⟨[], [], [("GET|/x?", [7])], []⟩ "GET|/x?" "/x" [] true
        (.sendError "connect timeout") 4 900).result
      = .err (.Anyhow "connect timeout")
    ∧ (fetch_singleflight_leader { base_url := "https://up/" } true
        ⟨[], [], [("GET|/x?", [7])], []⟩ "GET|/x?" "/x" [] true
        (.sendError "connect timeout") 4 900).state.inflight
      = [("GET|/x?", [7])]
    ∧ (fetch_singleflight_leader { base_url := "https://up/" } true
        ⟨[], [], [("GET|/x?", [7])], []⟩ "GET|/x?" "/x" [] true
        (.sendError "connect timeout") 4 900).deliveries = [] := by
  decide

/-! ### Claim C2 -/

/-- C2: the claim states that of N concurrent callers exactly one becomes
leader and every other caller receives the leader's result.  The second
half fails when the leader's upstream call fails at the network level: with
callers `[0, 1]`, caller 0 leads and caller 1 follows, but after the send
error the flight is never finished — no delivery reaches follower 1 and
the entry is still registered. -/
theorem C2_counterexample :
    (register_all [] "GET|/y?" [0, 1]).2 = [true, false]
    ∧ (fetch_singleflight_leader { base_url := "https://up/" } true
        ⟨[], [], (register_all [] "GET|/y?" [0, 1]).1, []⟩ "GET|/y?" "/y" []
        true (.sendError "tls handshake failed") 3 800).deliveries = []
    ∧ alookup (fetch_singleflight_leader { base_url := "https://up/" } true
        ⟨[], [], (register_all [] "GET|/y?" [0, 1]).1, []⟩ "GET|/y?" "/y" []
        true (.sendError "tls handshake failed") 3 800).state.inflight "GET|/y?"
      = some [1] := by
  decide

/-- C2 (amended): linearizing N concurrent `get` calls on the same
fingerprint with no prior entry, the first arrival becomes the unique
leader and every later arrival a registered follower; the leader issues
exactly one upstream call, and whenever that call yields an HTTP response
the flight completes: every follower is delivered exactly the leader's
result and the entry is removed (the registry returns to its prior state).
If the upstream call fails at the network level the flight is never
completed and followers receive nothing. -/
theorem C2_singleflight_linearized (cfg : ProxyConfig) (hasDb : Bool)
    (st : ProxyState) (key path : String) (params : List (String × String))
    (stc : Nat) (body : String) (now : Nat) (now_epoch : Int) (w : Nat)
    (rest : List Nat)
    (hempty : alookup st.inflight key = none)
    (hurl : cfg.base_url ≠ "") :
    (register_all st.inflight key (w :: rest)).2
      = true :: List.replicate rest.length false
    ∧ alookup (register_all st.inflight key (w :: rest)).1 key = some rest
    ∧ (fetch_singleflight_leader cfg hasDb
          { st with inflight := (register_all st.inflight key (w :: rest)).1 }
          key path params true (.response stc body) now now_epoch).result
        = .ok ((status_from_code stc).getD 500) body
    ∧ ((fetch_singleflight_leader cfg hasDb
          { st with inflight := (register_all st.inflight key (w :: rest)).1 }
          key path params true (.response stc body) now now_epoch).events.countP
        isUpstreamCall) = 1
    ∧ (fetch_singleflight_leader cfg hasDb
          { st with inflight := (register_all st.inflight key (w :: rest)).1 }
          key path params true (.response stc body) now now_epoch).deliveries
        = rest.map (fun w' =>
            (w', FetchResult.ok ((status_from_code stc).getD 500) body))
    ∧ (fetch_singleflight_leader cfg hasDb
          { st with inflight := (register_all st.inflight key (w :: rest)).1 }
          key path params true (.response stc body) now now_epoch).state.inflight
        = st.inflight := by
  rw [register_all_from_empty st.inflight key w rest hempty]
  dsimp only
  refine ⟨rfl, alookup_upsert_self .., ?_, ?_, ?_, ?_⟩
  · unfold fetch_singleflight_leader
    rw [if_neg (by decide : ¬ (true = false))]
    unfold build_url
    rw [if_neg hurl]
  · unfold fetch_singleflight_leader
    rw [if_neg (by decide : ¬ (true = false))]
    unfold build_url
    rw [if_neg hurl]
    dsimp only
    simp [List.countP_cons, isUpstreamCall]
  · unfold fetch_singleflight_leader
    rw [if_neg (by decide : ¬ (true = false))]
    unfold build_url
    rw [if_neg hurl]
    dsimp only
    unfold finish_flight
    rw [alookup_upsert_self]
    simp
  · unfold fetch_singleflight_leader
    rw [if_neg (by decide : ¬ (true = false))]
    unfold build_url
    rw [if_neg hurl]
    dsimp only
    unfold finish_flight
    dsimp only
    exact aremove_upsert _ _ _ hempty

/-- C2 witness: three callers on a cold fingerprint; both followers receive
the leader's 200 response. -/
theorem C2_singleflight_witness :
    (fetch_singleflight_leader { base_url := "https://u/" } true
        { cache := [], popularity := [],
          inflight := (register_all [] "GET|/t?" [0, 1, 2]).1, l2 := [] }
        "GET|/t?" "/t" [] true (.response 200 "payload") 6 3000).deliveries
      = [(1, FetchResult.ok 200 "payload"), (2, FetchResult.ok 200 "payload")] :=
  (C2_singleflight_linearized { base_url := "https://u/" } true
      ⟨[], [], [], []⟩ "GET|/t?" "/t" [] 200 "payload" 6 3000 0 [1, 2]
      rfl (by decide)).2.2.2.2.1
